import Mathlib

/-! Verification of the Tinkerbell bare-metal plugin driver.

Shallow embedding of
`pkg/cloudprovider/provider/baremetal/plugins/tinkerbell/driver.go`.

The driver composes three controller clients (hardware, template, workflow)
and a raw store client.  The controller client implementations live in a
package that is not part of the analysed sources, so the driver is embedded
generically over a `Clients` record of state-passing operations; claims about
the driver's sequencing are settled against an instrumented (trace-recording)
instance, and claims about store contents against a resource-store instance
whose operations are modelled from the spec.
-/

/-- Namespaced object name, mirrors `k8s.io/apimachinery/pkg/types.NamespacedName`. -/
structure NamespacedName where
  name : String
  ns : String
deriving DecidableEq, Repr

/-- Object metadata of the machine being provisioned; the driver reads only
`meta.Name` and `meta.UID` from `metav1.ObjectMeta`. -/
structure ObjectMeta where
  name : String
  uid : String
deriving DecidableEq, Repr

/-- A hardware record (`tinkv1alpha1.Hardware` wrapped in `tinktypes.Hardware`),
restricted to the fields the driver reads or writes: its namespaced name, its
claim identifier (the machine UID written onto it) and its userdata payload. -/
structure Hardware where
  name : String
  ns : String
  id : String
  userdata : String
deriving DecidableEq, Repr

/-- A template record (`tinkv1alpha1.Template`), restricted to the fields the
driver uses: key and the two parameters it is rendered from. -/
structure Template where
  name : String
  ns : String
  osImageURL : String
  hegelURL : String
deriving DecidableEq, Repr

/-- A workflow record (`tinkv1alpha1.Workflow`): key plus the template and
hardware it binds. -/
structure Workflow where
  name : String
  ns : String
  templateRef : String
  hardwareRef : String
deriving DecidableEq, Repr

/-- Go `error` values as the driver observes them: a store not-found error
(`apierrors.IsNotFound`), any other base error (identified by a tag), or an
error produced by `fmt.Errorf("...: %w", cause)`, which prefixes a message and
wraps the cause. -/
inductive Err where
  | notFound (what : String)
  | other (tag : String)
  | wrapped (msg : String) (cause : Err)
deriving DecidableEq, Repr

/-- Predicate `apierrors.IsNotFound` as the driver calls it on the raw error
returned by the store client. -/
def Err.isNotFound : Err → Bool
  | .notFound _ => true
  | _ => false

/-- Whether an error is a `fmt.Errorf` wrap (carries a step message and a cause). -/
def Err.isWrapped : Err → Bool
  | .wrapped _ _ => true
  | _ => false

/-- The controller-client interface the driver is written against, generic in
the world state `σ`.  Each operation threads the state even on failure, because
a failed call may already have had effects.  Go's `SetHardwareID` and
`SetHardwareUserData` mutate the hardware object through a pointer; here the
mutated object is returned.  The client implementations are not part of the
analysed sources; instances below model them. -/
structure Clients (σ : Type) where
  getHardware : NamespacedName → σ → Except Err Hardware × σ
  setHardwareID : Hardware → String → σ → Except Err Hardware × σ
  setHardwareUserData : Hardware → String → σ → Except Err Hardware × σ
  createHardwareOnTinkCluster : Hardware → σ → Except Err Unit × σ
  tinkGetTemplate : NamespacedName → σ → Except Err Template × σ
  createTemplate : NamespacedName → String → String → σ → Except Err Template × σ
  createWorkflow : String → String → Hardware → σ → Except Err Unit × σ
  getHardwareWithID : String → σ → Except Err Hardware × σ
  deleteWorkflow : String → String → σ → Except Err Unit × σ
  tinkDeleteHardware : Hardware → σ → Except Err Unit × σ
  templateDelete : NamespacedName → σ → Except Err Unit × σ

/-- The `driver` struct fields the four operations read. -/
structure Driver (σ : Type) where
  clusterName : String
  osImageURL : String
  hegelURL : String
  hardwareRef : NamespacedName
  clients : Clients σ

/-- Operation `driver.GetServer`: fetch the hardware claimed by the machine's UID. -/
def GetServer {σ : Type} (d : Driver σ) (meta : ObjectMeta) (s : σ) :
    Except Err Hardware × σ :=
  d.clients.getHardwareWithID meta.uid s

/-- Operation `driver.ProvisionServer`, translated clause by clause from the source:
fetch the statically configured hardware, set its claim identifier to the
machine UID, attach the userdata, persist it to the tink cluster, get the
template named `meta.Name` in namespace `"tink-stack"` (creating it from the
configured OS-image and Hegel URLs only when the get reports not-found,
re-raising any other get error wrapped as `failed to get template`), create the
workflow, and return the claimed hardware.  Every `if err != nil` return in the
source becomes an error branch here. -/
def ProvisionServer {σ : Type} (d : Driver σ) (meta : ObjectMeta)
    (userdata : String) (s : σ) : Except Err Hardware × σ :=
  match d.clients.getHardware d.hardwareRef s with
  | (.error e, s) => (.error e, s)
  | (.ok hardware, s) =>
  match d.clients.setHardwareID hardware meta.uid s with
  | (.error e, s) => (.error e, s)
  | (.ok hardware, s) =>
  match d.clients.setHardwareUserData hardware userdata s with
  | (.error e, s) => (.error e, s)
  | (.ok hardware, s) =>
  match d.clients.createHardwareOnTinkCluster hardware s with
  | (.error e, s) => (.error e, s)
  | (.ok _, s) =>
  let tmplNamespacedName : NamespacedName := ⟨meta.name, "tink-stack"⟩
  let tres :=
    match d.clients.tinkGetTemplate tmplNamespacedName s with
    | (.ok template, s) => (Except.ok template, s)
    | (.error e, s) =>
      if !e.isNotFound then
        (Except.error (Err.wrapped "failed to get template" e), s)
      else
        d.clients.createTemplate tmplNamespacedName d.osImageURL d.hegelURL s
  match tres with
  | (.error e, s) => (.error e, s)
  | (.ok template, s) =>
  match d.clients.createWorkflow hardware.name template.name hardware s with
  | (.error e, s) => (.error e, s)
  | (.ok _, s) => (.ok hardware, s)

/-- Operation `driver.Validate`: the source body is `return nil`. -/
def Validate {σ : Type} (_ : Driver σ) (_spec : String) : Option Err :=
  none

/-- Operation `driver.DeprovisionServer`, translated clause by clause from the source:
locate the hardware claimed by the machine UID, delete the workflow named
`<hardware-name>-workflow` in the hardware's namespace, delete the hardware,
reset the hardware's claim identifier to `""`, and delete the template named
`meta.Name` in namespace `"tink-stack"`.  The error messages reproduce the
source literally — including the template-deletion branch, whose message in
the source reads `failed to reset hardware ID for ...`. -/
def DeprovisionServer {σ : Type} (d : Driver σ) (meta : ObjectMeta) (s : σ) :
    Except Err Unit × σ :=
  match d.clients.getHardwareWithID meta.uid s with
  | (.error e, s) => (.error e, s)
  | (.ok targetHardware, s) =>
  let workflowName := targetHardware.name ++ "-workflow"
  match d.clients.deleteWorkflow workflowName targetHardware.ns s with
  | (.error e, s) =>
      (.error (.wrapped ("failed to delete workflow " ++ workflowName) e), s)
  | (.ok _, s) =>
  match d.clients.tinkDeleteHardware targetHardware s with
  | (.error e, s) =>
      (.error (.wrapped ("failed to delete hardware " ++ targetHardware.name) e), s)
  | (.ok _, s) =>
  match d.clients.setHardwareID targetHardware "" s with
  | (.error e, s) =>
      (.error (.wrapped ("failed to reset hardware ID for " ++ targetHardware.name) e), s)
  | (.ok _, s) =>
  let tmplNamespacedName : NamespacedName := ⟨meta.name, "tink-stack"⟩
  match d.clients.templateDelete tmplNamespacedName s with
  | (.error e, s) =>
      (.error (.wrapped ("failed to reset hardware ID for " ++ targetHardware.name) e), s)
  | (.ok _, s) => (.ok (), s)

/-! ## Instrumented instance: every client call is recorded as an event

The outcomes of the external controller operations are supplied by an
`Oracle`; the world state is the list of calls issued so far.  This instance
settles the claims about sequencing, short-circuiting and the arguments the
driver passes to its collaborators. -/

/-- One controller/store call, with the arguments the driver passed. -/
inductive Event where
  | getHardware (ref : NamespacedName)
  | setHardwareID (hw : Hardware) (id : String)
  | setHardwareUserData (hw : Hardware) (userdata : String)
  | createHardwareOnTinkCluster (hw : Hardware)
  | getTemplate (key : NamespacedName)
  | createTemplate (key : NamespacedName) (osImageURL : String) (hegelURL : String)
  | createWorkflow (name : String) (templateName : String) (hw : Hardware)
  | getHardwareWithID (id : String)
  | deleteWorkflow (name : String) (ns : String)
  | deleteHardware (hw : Hardware)
  | deleteTemplate (key : NamespacedName)
deriving DecidableEq, Repr

/-- Outcomes of the external controller operations, as a function of the
arguments the driver passes (the collaborators' behaviour is opaque to the
driver, so it is universally quantified in the sequencing claims). -/
structure Oracle where
  getHardware : NamespacedName → Except Err Hardware
  setHardwareID : Hardware → String → Except Err Unit
  setHardwareUserData : Hardware → String → Except Err Unit
  createHardwareOnTinkCluster : Hardware → Except Err Unit
  tinkGetTemplate : NamespacedName → Except Err Template
  createTemplate : NamespacedName → String → String → Except Err Template
  createWorkflow : String → String → Hardware → Except Err Unit
  getHardwareWithID : String → Except Err Hardware
  deleteWorkflow : String → String → Except Err Unit
  tinkDeleteHardware : Hardware → Except Err Unit
  templateDelete : NamespacedName → Except Err Unit

/-- The trace-recording client instance.  Each operation appends its event and
reports the oracle's outcome.  Modelled from the spec: `SetHardwareID` /
`SetHardwareUserData` (whose implementations are outside the analysed sources)
set the claim identifier, respectively attach the userdata payload, on the
hardware object handed to them, which is reflected here in the returned
(pointer-mutated) object. -/
def traceClients (o : Oracle) : Clients (List Event) where
  getHardware := fun ref s => (o.getHardware ref, s ++ [.getHardware ref])
  setHardwareID := fun hw id s =>
    ((o.setHardwareID hw id).map (fun _ => { hw with id := id }),
      s ++ [.setHardwareID hw id])
  setHardwareUserData := fun hw ud s =>
    ((o.setHardwareUserData hw ud).map (fun _ => { hw with userdata := ud }),
      s ++ [.setHardwareUserData hw ud])
  createHardwareOnTinkCluster := fun hw s =>
    (o.createHardwareOnTinkCluster hw, s ++ [.createHardwareOnTinkCluster hw])
  tinkGetTemplate := fun key s => (o.tinkGetTemplate key, s ++ [.getTemplate key])
  createTemplate := fun key osu hgu s =>
    (o.createTemplate key osu hgu, s ++ [.createTemplate key osu hgu])
  createWorkflow := fun n tn hw s =>
    (o.createWorkflow n tn hw, s ++ [.createWorkflow n tn hw])
  getHardwareWithID := fun id s =>
    (o.getHardwareWithID id, s ++ [.getHardwareWithID id])
  deleteWorkflow := fun n ns s => (o.deleteWorkflow n ns, s ++ [.deleteWorkflow n ns])
  tinkDeleteHardware := fun hw s =>
    (o.tinkDeleteHardware hw, s ++ [.deleteHardware hw])
  templateDelete := fun key s => (o.templateDelete key, s ++ [.deleteTemplate key])

/-- Driver wired to the trace-recording clients. -/
def traceDriver (o : Oracle) (cn osu hgu : String) (ref : NamespacedName) :
    Driver (List Event) :=
  ⟨cn, osu, hgu, ref, traceClients o⟩

/-! ## The provisioning sequence in the spec's words

`provisionSteps` and `deprovisionSteps` restate the lifecycle operations as the
spec enumerates them — numbered steps executed in strict order, aborting at the
first failing step, template creation only on a not-found lookup, the claimed
hardware returned on success.  The error value surfaced at each failing step is
the one the driver surfaces (whether a step failure is wrapped with step
context is settled separately). -/

/-- The spec's provision step list: (1) fetch the configured hardware, (2) set
its claim identifier to the machine UID, (3) attach the userdata, (4) persist
the hardware, (5) look up the template named after the machine in the fixed
namespace and create it (from the OS-image and metadata-service URLs) only if
the lookup reports not-found, (6) create the workflow binding hardware and
template; abort at the first failing step; on success return the claimed
hardware. -/
def provisionSteps (o : Oracle) (osu hgu : String) (ref : NamespacedName)
    (meta : ObjectMeta) (userdata : String) (s : List Event) :
    Except Err Hardware × List Event :=
  let s1 := s ++ [Event.getHardware ref]
  match o.getHardware ref with
  | .error e => (.error e, s1)
  | .ok hw0 =>
  let s2 := s1 ++ [Event.setHardwareID hw0 meta.uid]
  match o.setHardwareID hw0 meta.uid with
  | .error e => (.error e, s2)
  | .ok _ =>
  let hw1 : Hardware := { hw0 with id := meta.uid }
  let s3 := s2 ++ [Event.setHardwareUserData hw1 userdata]
  match o.setHardwareUserData hw1 userdata with
  | .error e => (.error e, s3)
  | .ok _ =>
  let hw2 : Hardware := { hw1 with userdata := userdata }
  let s4 := s3 ++ [Event.createHardwareOnTinkCluster hw2]
  match o.createHardwareOnTinkCluster hw2 with
  | .error e => (.error e, s4)
  | .ok _ =>
  let key : NamespacedName := ⟨meta.name, "tink-stack"⟩
  let s5 := s4 ++ [Event.getTemplate key]
  match o.tinkGetTemplate key with
  | .ok template =>
    let s6 := s5 ++ [Event.createWorkflow hw2.name template.name hw2]
    (match o.createWorkflow hw2.name template.name hw2 with
     | .error e => (.error e, s6)
     | .ok _ => (.ok hw2, s6))
  | .error e =>
    if e.isNotFound then
      let s5' := s5 ++ [Event.createTemplate key osu hgu]
      match o.createTemplate key osu hgu with
      | .error e' => (.error e', s5')
      | .ok template =>
        let s6 := s5' ++ [Event.createWorkflow hw2.name template.name hw2]
        (match o.createWorkflow hw2.name template.name hw2 with
         | .error e' => (.error e', s6)
         | .ok _ => (.ok hw2, s6))
    else
      (.error (.wrapped "failed to get template" e), s5)

/-- The spec's deprovision step list: (1) locate the hardware claimed by the
machine UID, (2) delete the workflow named `<hardware-name>-workflow`, (3)
delete the hardware record, (4) reset the hardware's claim identifier to the
empty string, (5) delete the template named after the machine; abort at the
first failing step.  Error values are those the driver surfaces. -/
def deprovisionSteps (o : Oracle) (meta : ObjectMeta) (s : List Event) :
    Except Err Unit × List Event :=
  let s1 := s ++ [Event.getHardwareWithID meta.uid]
  match o.getHardwareWithID meta.uid with
  | .error e => (.error e, s1)
  | .ok thw =>
  let wfName := thw.name ++ "-workflow"
  let s2 := s1 ++ [Event.deleteWorkflow wfName thw.ns]
  match o.deleteWorkflow wfName thw.ns with
  | .error e => (.error (.wrapped ("failed to delete workflow " ++ wfName) e), s2)
  | .ok _ =>
  let s3 := s2 ++ [Event.deleteHardware thw]
  match o.tinkDeleteHardware thw with
  | .error e => (.error (.wrapped ("failed to delete hardware " ++ thw.name) e), s3)
  | .ok _ =>
  let s4 := s3 ++ [Event.setHardwareID thw ""]
  match o.setHardwareID thw "" with
  | .error e => (.error (.wrapped ("failed to reset hardware ID for " ++ thw.name) e), s4)
  | .ok _ =>
  let key : NamespacedName := ⟨meta.name, "tink-stack"⟩
  let s5 := s4 ++ [Event.deleteTemplate key]
  match o.templateDelete key with
  | .error e => (.error (.wrapped ("failed to reset hardware ID for " ++ thw.name) e), s5)
  | .ok _ => (.ok (), s5)

/-! ## Resource-store instance

The controller-client implementations are outside the analysed sources, so the
store semantics below is modelled from the spec (§3, §4.2–4.4, §6): a
declarative store of hardware, template and workflow objects addressed by
namespaced name, with a distinguishable not-found outcome. -/

/-- The resource store's contents. -/
structure Store where
  hardwares : List Hardware
  templates : List Template
  workflows : List Workflow
deriving DecidableEq, Repr

/-- Whether a hardware record carries the given namespaced name. -/
def hwMatches (n nsp : String) (h : Hardware) : Bool :=
  h.name == n && h.ns == nsp

/-- Modelled from the spec: fetch-by-static-reference — return the hardware
with the referenced namespaced name, not-found when none matches. -/
def storeGetHardware (ref : NamespacedName) (s : Store) :
    Except Err Hardware × Store :=
  match s.hardwares.find? (hwMatches ref.name ref.ns) with
  | some h => (.ok h, s)
  | none => (.error (.notFound "hardware"), s)

/-- Modelled from the spec: set-claim-identifier — write the claim identifier
onto the hardware record in the store (by namespaced name) and onto the object
handed in. -/
def storeSetHardwareID (hw : Hardware) (id : String) (s : Store) :
    Except Err Hardware × Store :=
  (.ok { hw with id := id },
    { s with hardwares :=
        s.hardwares.map (fun h => if hwMatches hw.name hw.ns h then { h with id := id } else h) })

/-- Modelled from the spec: set-userdata — attach the userdata payload to the
hardware record in the store (by namespaced name) and to the object handed in. -/
def storeSetHardwareUserData (hw : Hardware) (ud : String) (s : Store) :
    Except Err Hardware × Store :=
  (.ok { hw with userdata := ud },
    { s with hardwares :=
        s.hardwares.map (fun h => if hwMatches hw.name hw.ns h then { h with userdata := ud } else h) })

/-- Modelled from the spec: persist-to-store with create-or-update semantics —
replace the record with the same namespaced name, or append when absent. -/
def storeCreateHardware (hw : Hardware) (s : Store) : Except Err Unit × Store :=
  (.ok (), { s with hardwares :=
      if s.hardwares.any (hwMatches hw.name hw.ns) then
        s.hardwares.map (fun h => if hwMatches hw.name hw.ns h then hw else h)
      else
        s.hardwares ++ [hw] })

/-- Modelled from the spec: template lookup by namespaced name, not-found when
absent. -/
def storeGetTemplate (key : NamespacedName) (s : Store) :
    Except Err Template × Store :=
  match s.templates.find? (fun t => t.name == key.name && t.ns == key.ns) with
  | some t => (.ok t, s)
  | none => (.error (.notFound "template"), s)

/-- Modelled from the spec: create the template rendered from the OS-image and
metadata-service URLs under the given key. -/
def storeCreateTemplate (key : NamespacedName) (osu hgu : String) (s : Store) :
    Except Err Template × Store :=
  let t : Template := ⟨key.name, key.ns, osu, hgu⟩
  (.ok t, { s with templates := s.templates ++ [t] })

/-- Modelled from the spec: create the workflow binding the hardware to the
template; its name is derived from the hardware name as
`<hardware-name>-workflow` and it lives in the hardware's namespace. -/
def storeCreateWorkflow (n tn : String) (hw : Hardware) (s : Store) :
    Except Err Unit × Store :=
  (.ok (), { s with workflows := s.workflows ++ [⟨n ++ "-workflow", hw.ns, tn, n⟩] })

/-- Modelled from the spec: fetch-by-claim-identifier — return the hardware
whose claim identifier equals the machine UID, not-found when none matches. -/
def storeGetHardwareWithID (id : String) (s : Store) :
    Except Err Hardware × Store :=
  match s.hardwares.find? (fun h => h.id == id) with
  | some h => (.ok h, s)
  | none => (.error (.notFound "hardware"), s)

/-- Modelled from the spec: workflow deletion by namespaced name; succeeds
(no-op) when the workflow is already absent. -/
def storeDeleteWorkflow (n nsp : String) (s : Store) : Except Err Unit × Store :=
  (.ok (), { s with workflows :=
      s.workflows.filter (fun w => !(w.name == n && w.ns == nsp)) })

/-- Modelled from the spec: delete the hardware record from the store;
not-found is a distinguishable outcome when no record carries that name. -/
def storeDeleteHardware (hw : Hardware) (s : Store) : Except Err Unit × Store :=
  if s.hardwares.any (hwMatches hw.name hw.ns) then
    (.ok (), { s with hardwares :=
        s.hardwares.filter (fun h => !hwMatches hw.name hw.ns h) })
  else
    (.error (.notFound "hardware"), s)

/-- Modelled from the spec: template deletion by namespaced name; delete is
idempotent (succeeds when absent). -/
def storeDeleteTemplate (key : NamespacedName) (s : Store) :
    Except Err Unit × Store :=
  (.ok (), { s with templates :=
      s.templates.filter (fun t => !(t.name == key.name && t.ns == key.ns)) })

/-- The controller clients over the modelled resource store. -/
def storeClients : Clients Store where
  getHardware := storeGetHardware
  setHardwareID := storeSetHardwareID
  setHardwareUserData := storeSetHardwareUserData
  createHardwareOnTinkCluster := fun hw s => storeCreateHardware hw s
  tinkGetTemplate := storeGetTemplate
  createTemplate := storeCreateTemplate
  createWorkflow := storeCreateWorkflow
  getHardwareWithID := storeGetHardwareWithID
  deleteWorkflow := storeDeleteWorkflow
  tinkDeleteHardware := storeDeleteHardware
  templateDelete := storeDeleteTemplate

/-- Driver wired to the modelled resource store. -/
def storeDriver (cn osu hgu : String) (ref : NamespacedName) : Driver Store :=
  ⟨cn, osu, hgu, ref, storeClients⟩

/-! ## Config resolution (`GetConfig`)

`GetConfig` resolves the plugin spec into a connection configuration: a
directly embedded kubeconfig must be base64-encoded and is decoded; an empty
one falls back to the lookup function under the fixed key `TINK_KUBECONFIG`,
accepted unencoded.  Go strings are byte strings; decoded bytes are rendered
as characters with the byte's code point. -/

/-- A config value that may be embedded directly
(`providerconfigtypes.ConfigVarString`): the driver reads only `.Value`. -/
structure ConfigVarString where
  value : String
deriving DecidableEq, Repr

/-- Spec type `tinktypes.TinkerbellPluginSpec`, restricted to the fields `GetConfig`
reads: the embedded kubeconfig (under `Auth`), cluster name, OS-image URL and
Hegel (metadata-service) URL. -/
structure TinkerbellPluginSpec where
  kubeconfig : ConfigVarString
  clusterName : ConfigVarString
  osImageURL : ConfigVarString
  hegelURL : ConfigVarString
  hardwareRef : NamespacedName
deriving DecidableEq, Repr

/-- The derived client configuration built from the kubeconfig
(`rest.Config`); its construction is external, so it is opaque here. -/
structure RestConfig where
  fromKubeconfig : String
deriving DecidableEq, Repr

/-- Resolved configuration `tinktypes.Config`: connection and provisioning parameters. -/
structure Config where
  kubeconfig : String
  clusterName : String
  osImageURL : String
  hegelURL : String
  restConfig : RestConfig
deriving DecidableEq, Repr

/-- Index of a character in the standard base64 alphabet
(`A-Z a-z 0-9 + /`), none for anything else. -/
def b64Index (c : Char) : Option Nat :=
  if 'A' ≤ c ∧ c ≤ 'Z' then some (c.toNat - 65)
  else if 'a' ≤ c ∧ c ≤ 'z' then some (c.toNat - 97 + 26)
  else if '0' ≤ c ∧ c ≤ '9' then some (c.toNat - 48 + 52)
  else if c = '+' then some 62
  else if c = '/' then some 63
  else none

/-- Decode a base64 character stream quantum by quantum, as Go's
`base64.StdEncoding` does: each 4-character quantum yields 3 bytes; the final
quantum may end in `=` (3 data characters, 2 bytes) or `==` (2 data
characters, 1 byte); padding anywhere else, a character outside the alphabet,
or a length that is not a multiple of 4 is a decode error. -/
def decodeQuanta : List Char → Option (List Nat)
  | [] => some []
  | a :: b :: c :: d :: rest =>
    match b64Index a, b64Index b with
    | some x, some y =>
      if c = '=' then
        if d = '=' ∧ rest = [] then some [x * 4 + y / 16] else none
      else
        match b64Index c with
        | some z =>
          if d = '=' then
            if rest = [] then some [x * 4 + y / 16, y % 16 * 16 + z / 4] else none
          else
            match b64Index d, decodeQuanta rest with
            | some w, some tail =>
              some ((x * 4 + y / 16) :: (y % 16 * 16 + z / 4) :: (z % 4 * 64 + w) :: tail)
            | _, _ => none
        | none => none
    | _, _ => none
  | _ => none

/-- Go's `base64.StdEncoding.DecodeString`: newline characters are ignored,
then the stream is decoded quantum by quantum; the decoded bytes are returned
as a Go (byte) string. -/
def base64Decode (s : String) : Option String :=
  (decodeQuanta (s.data.filter (fun c => c ≠ '\n' ∧ c ≠ '\r'))).map
    (fun bs => String.mk (bs.map Char.ofNat))

/-- Function `GetConfig`, translated clause by clause from the source.  `aa` is the
lookup function passed by the caller (environment-variable/secret resolution);
`restConfigFromKubeConfig` stands for the external
`clientcmd.RESTConfigFromKubeConfig`, which builds the derived client
configuration from the resolved kubeconfig bytes.  A non-empty embedded
kubeconfig must be valid base64 and is decoded; an empty one is resolved
through `aa` under the key `TINK_KUBECONFIG` and used as returned. -/
def GetConfig (driverConfig : TinkerbellPluginSpec)
    (aa : ConfigVarString → String → Except Err String)
    (restConfigFromKubeConfig : String → Except Err RestConfig) :
    Except Err Config :=
  let kres : Except Err String :=
    if driverConfig.kubeconfig.value ≠ "" then
      match base64Decode driverConfig.kubeconfig.value with
      | some val => .ok val
      | none =>
        .error (.wrapped
          "failed to decode base64 encoded kubeconfig. Expected value is a base64 encoded Kubeconfig in JSON or YAML format"
          (.other "illegal base64 data"))
    else
      match aa driverConfig.kubeconfig "TINK_KUBECONFIG" with
      | .ok v => .ok v
      | .error e => .error (.wrapped "failed to get value of \"kubeconfig\" field" e)
  match kres with
  | .error e => .error e
  | .ok kubeconfig =>
  match aa driverConfig.clusterName "CLUSTER_NAME" with
  | .error e => .error (.wrapped "failed to get value of \"clusterName\" field" e)
  | .ok clusterName =>
  match aa driverConfig.osImageURL "OS_IMAGE_URL" with
  | .error e => .error (.wrapped "failed to get value of \"OSImageURL\" field" e)
  | .ok osImageURL =>
  match aa driverConfig.hegelURL "HEGEL_URL" with
  | .error e => .error (.wrapped "failed to get value of \"HegelURL\" field" e)
  | .ok hegelURL =>
  match restConfigFromKubeConfig kubeconfig with
  | .error e => .error (.wrapped "failed to decode kubeconfig" e)
  | .ok restConfig =>
    .ok ⟨kubeconfig, clusterName, osImageURL, hegelURL, restConfig⟩

/-! ## Concrete fixtures for the closed instance theorems -/

/-- Example static hardware reference. -/
def refEx : NamespacedName := ⟨"hardware-1", "default"⟩

/-- Example machine metadata. -/
def metaEx : ObjectMeta := ⟨"machine-1", "uid-1"⟩

/-- Example unclaimed hardware record. -/
def hwEx : Hardware := ⟨"hardware-1", "default", "", ""⟩

/-- Example claimed hardware record. -/
def hwClaimedEx : Hardware := ⟨"hardware-1", "default", "uid-1", "data-1"⟩

/-- Example template. -/
def tmplEx : Template := ⟨"machine-1", "tink-stack", "img-url", "hegel-url"⟩

/-- Oracle on which every controller operation succeeds and the template
lookup finds `tmplEx`. -/
def okOracle : Oracle where
  getHardware := fun _ => .ok hwEx
  setHardwareID := fun _ _ => .ok ()
  setHardwareUserData := fun _ _ => .ok ()
  createHardwareOnTinkCluster := fun _ => .ok ()
  tinkGetTemplate := fun _ => .ok tmplEx
  createTemplate := fun key osu hgu => .ok ⟨key.name, key.ns, osu, hgu⟩
  createWorkflow := fun _ _ _ => .ok ()
  getHardwareWithID := fun _ => .ok hwClaimedEx
  deleteWorkflow := fun _ _ => .ok ()
  tinkDeleteHardware := fun _ => .ok ()
  templateDelete := fun _ => .ok ()

/-- Like `okOracle` but the template lookup reports not-found. -/
def missOracle : Oracle :=
  { okOracle with tinkGetTemplate := fun _ => .error (.notFound "template") }

/-- Like `okOracle` but the initial hardware fetch fails. -/
def fetchFailOracle : Oracle :=
  { okOracle with getHardware := fun _ => .error (.other "connection refused") }

/-- Like `okOracle` but setting the hardware claim identifier fails. -/
def boomOracle : Oracle :=
  { okOracle with setHardwareID := fun _ _ => .error (.other "boom") }

/-- Like `okOracle` but the template deletion fails. -/
def tmplDelFailOracle : Oracle :=
  { okOracle with templateDelete := fun _ => .error (.other "tboom") }

/-- Store holding one unclaimed hardware record. -/
def storeProv : Store := ⟨[hwEx], [], []⟩

/-- Store as left by a completed provisioning of `metaEx`. -/
def storeDep : Store :=
  ⟨[hwClaimedEx], [tmplEx],
   [⟨"hardware-1-workflow", "default", "machine-1", "hardware-1"⟩]⟩

/-- Lookup function resolving every key to a marker value. -/
def aaEx : ConfigVarString → String → Except Err String :=
  fun _ name => .ok ("v-" ++ name)

/-- Client-config builder that always succeeds. -/
def restEx : String → Except Err RestConfig := fun s => .ok ⟨s⟩

/-- Plugin spec with a valid base64-embedded kubeconfig (decodes to `hello`). -/
def specB64 : TinkerbellPluginSpec := ⟨⟨"aGVsbG8="⟩, ⟨""⟩, ⟨""⟩, ⟨""⟩, refEx⟩

/-- Plugin spec with an invalid base64-embedded kubeconfig. -/
def specBadB64 : TinkerbellPluginSpec := ⟨⟨"not-base64!"⟩, ⟨""⟩, ⟨""⟩, ⟨""⟩, refEx⟩

/-- Plugin spec with no embedded kubeconfig. -/
def specEmpty : TinkerbellPluginSpec := ⟨⟨""⟩, ⟨""⟩, ⟨""⟩, ⟨""⟩, refEx⟩

/-- Hardware list of the modelled store after the three hardware steps of a
provisioning run that claimed `hw0` for `uid` with userdata `ud`: the claim
identifier and userdata writes, followed by the create-or-update persist. -/
def postHW (uid ud : String) (hw0 : Hardware) (hs : List Hardware) : List Hardware :=
  let hs2 := (hs.map (fun h => if hwMatches hw0.name hw0.ns h then { h with id := uid } else h)).map
    (fun h => if hwMatches hw0.name hw0.ns h then { h with userdata := ud } else h)
  if hs2.any (hwMatches hw0.name hw0.ns) then
    hs2.map (fun h =>
      if hwMatches hw0.name hw0.ns h then { hw0 with id := uid, userdata := ud } else h)
  else hs2 ++ [{ hw0 with id := uid, userdata := ud }]

/-- Hardware list of the modelled store after a deprovisioning run that
removed `thw`: the deletion followed by the (post-deletion) claim reset. -/
def postDepHW (thw : Hardware) (hs : List Hardware) : List Hardware :=
  (hs.filter (fun h => !hwMatches thw.name thw.ns h)).map
    (fun h => if hwMatches thw.name thw.ns h then { h with id := "" } else h)

/-- The instrumented driver's `ProvisionServer` performs exactly the spec's
step list. -/
lemma provision_trace_eq (o : Oracle) (cn osu hgu : String) (ref : NamespacedName)
    (meta : ObjectMeta) (ud : String) (s : List Event) :
    ProvisionServer (traceDriver o cn osu hgu ref) meta ud s =
      provisionSteps o osu hgu ref meta ud s := by
  unfold ProvisionServer provisionSteps traceDriver traceClients
  dsimp only
  cases o.getHardware ref with
  | error e => rfl
  | ok hw0 =>
  dsimp only
  cases o.setHardwareID hw0 meta.uid with
  | error e => rfl
  | ok u1 =>
  dsimp only [Except.map]
  cases o.setHardwareUserData { hw0 with id := meta.uid } ud with
  | error e => rfl
  | ok u2 =>
  dsimp only [Except.map]
  cases o.createHardwareOnTinkCluster { hw0 with id := meta.uid, userdata := ud } with
  | error e => rfl
  | ok u3 =>
  dsimp only
  cases o.tinkGetTemplate ⟨meta.name, "tink-stack"⟩ with
  | ok template =>
    dsimp only
    cases o.createWorkflow hw0.name template.name
        { hw0 with id := meta.uid, userdata := ud } with
    | error e => rfl
    | ok u4 => rfl
  | error e =>
    dsimp only
    cases he : e.isNotFound with
    | false =>
      simp only [he, Bool.not_false, if_true, if_false, ite_false, ite_true,
        Bool.true_eq_false, Bool.false_eq_true]
    | true =>
      simp only [he, Bool.not_true, ite_true, ite_false, Bool.true_eq_false,
        Bool.false_eq_true, if_false]
      cases o.createTemplate ⟨meta.name, "tink-stack"⟩ osu hgu with
      | error e' => rfl
      | ok template =>
        dsimp only
        cases o.createWorkflow hw0.name template.name
            { hw0 with id := meta.uid, userdata := ud } with
        | error e' => rfl
        | ok u4 => rfl

/-- The instrumented driver's `DeprovisionServer` performs exactly the spec's
step list. -/
lemma deprovision_trace_eq (o : Oracle) (cn osu hgu : String)
    (ref : NamespacedName) (meta : ObjectMeta) (s : List Event) :
    DeprovisionServer (traceDriver o cn osu hgu ref) meta s =
      deprovisionSteps o meta s := by
  unfold DeprovisionServer deprovisionSteps traceDriver traceClients
  dsimp only
  cases o.getHardwareWithID meta.uid with
  | error e => rfl
  | ok thw =>
  dsimp only
  cases o.deleteWorkflow (thw.name ++ "-workflow") thw.ns with
  | error e => rfl
  | ok u1 =>
  dsimp only
  cases o.tinkDeleteHardware thw with
  | error e => rfl
  | ok u2 =>
  dsimp only
  cases o.setHardwareID thw "" with
  | error e => rfl
  | ok u3 =>
  dsimp only [Except.map]
  cases o.templateDelete ⟨meta.name, "tink-stack"⟩ with
  | error e => rfl
  | ok u4 => rfl

/-- Helper: `find?` returns the designated element when it satisfies the
predicate and is the only member that does. -/
lemma find?_eq_some_of_unique {α : Type} (p : α → Bool) (l : List α) (a : α)
    (ha : a ∈ l) (hpa : p a = true) (hall : ∀ b ∈ l, p b = true → b = a) :
    l.find? p = some a := by
  induction l with
  | nil => cases ha
  | cons b t ih =>
    cases hpb : p b with
    | true =>
      have hba : b = a := hall b (List.mem_cons_self _ _) hpb
      rw [List.find?_cons_of_pos _ hpb, hba]
    | false =>
      have hat : a ∈ t := by
        rcases List.mem_cons.mp ha with h | h
        · subst h; rw [hpa] at hpb; cases hpb
        · exact h
      rw [List.find?_cons_of_neg _ (by simp [hpb])]
      exact ih hat (fun b hb hp => hall b (List.mem_cons_of_mem _ hb) hp)

/-- Helper: unfolding `hwMatches` into propositional equalities. -/
lemma hwMatches_true_iff {n nsp : String} {h : Hardware} :
    hwMatches n nsp h = true ↔ h.name = n ∧ h.ns = nsp := by
  simp [hwMatches]

/-- On the modelled store, a provisioning run whose hardware fetch finds `hw0`
succeeds and returns the claimed hardware. -/
lemma provision_store_fst (cn osu hgu : String) (ref : NamespacedName)
    (meta : ObjectMeta) (ud : String) (s : Store) (hw0 : Hardware)
    (hfind : s.hardwares.find? (hwMatches ref.name ref.ns) = some hw0) :
    (ProvisionServer (storeDriver cn osu hgu ref) meta ud s).1 =
      .ok { hw0 with id := meta.uid, userdata := ud } := by
  unfold ProvisionServer storeDriver storeClients storeGetHardware
  dsimp only
  rw [hfind]
  dsimp only [storeSetHardwareID, storeSetHardwareUserData, storeCreateHardware,
    storeGetTemplate, storeCreateTemplate, storeCreateWorkflow]
  cases ht : s.templates.find? (fun t => t.name == meta.name && t.ns == "tink-stack") with
  | some t => rfl
  | none => rfl

/-- On the modelled store, a provisioning run whose hardware fetch finds `hw0`
leaves the hardware list `postHW meta.uid ud hw0 s.hardwares`. -/
lemma provision_store_hardwares (cn osu hgu : String) (ref : NamespacedName)
    (meta : ObjectMeta) (ud : String) (s : Store) (hw0 : Hardware)
    (hfind : s.hardwares.find? (hwMatches ref.name ref.ns) = some hw0) :
    ((ProvisionServer (storeDriver cn osu hgu ref) meta ud s).2).hardwares =
      postHW meta.uid ud hw0 s.hardwares := by
  unfold ProvisionServer storeDriver storeClients storeGetHardware postHW
  dsimp only
  rw [hfind]
  dsimp only [storeSetHardwareID, storeSetHardwareUserData, storeCreateHardware,
    storeGetTemplate, storeCreateTemplate, storeCreateWorkflow]
  cases ht : s.templates.find? (fun t => t.name == meta.name && t.ns == "tink-stack") with
  | some t => rfl
  | none => rfl

/-- Helper: every member of `postHW uid ud hw0 hs` is either the claimed,
userdata-carrying record or an untouched record of `hs` that does not carry
`hw0`'s namespaced name. -/
lemma mem_postHW {uid ud : String} {hw0 h : Hardware} {hs : List Hardware}
    (hmem : h ∈ postHW uid ud hw0 hs) :
    h = { hw0 with id := uid, userdata := ud } ∨
      (h ∈ hs ∧ hwMatches hw0.name hw0.ns h = false) := by
  unfold postHW at hmem
  dsimp only at hmem
  have step2 : ∀ x ∈ ((hs.map (fun h => if hwMatches hw0.name hw0.ns h then { h with id := uid } else h)).map
      (fun h => if hwMatches hw0.name hw0.ns h then { h with userdata := ud } else h)),
      x = { hw0 with id := uid, userdata := ud } ∨
        (x ∈ hs ∧ hwMatches hw0.name hw0.ns x = false) := by
    intro x hx
    rcases List.mem_map.mp hx with ⟨x1, hx1, hx1e⟩
    rcases List.mem_map.mp hx1 with ⟨x0, hx0, hx0e⟩
    by_cases hm : hwMatches hw0.name hw0.ns x0 = true
    · left
      rw [if_pos hm] at hx0e
      subst hx0e
      have hm1 : hwMatches hw0.name hw0.ns { x0 with id := uid } = true := hm
      rw [if_pos hm1] at hx1e
      subst hx1e
      rcases hwMatches_true_iff.mp hm with ⟨hn, hns⟩
      cases x0
      cases hw0
      simp_all
    · right
      rw [if_neg hm] at hx0e
      subst hx0e
      rw [if_neg hm] at hx1e
      subst hx1e
      exact ⟨hx0, Bool.not_eq_true _ |>.mp hm⟩
  split at hmem
  · rcases List.mem_map.mp hmem with ⟨x, hx, hxe⟩
    by_cases hm : hwMatches hw0.name hw0.ns x = true
    · rw [if_pos hm] at hxe
      left
      exact hxe.symm
    · rw [if_neg hm] at hxe
      subst hxe
      exact step2 x hx
  · rcases List.mem_append.mp hmem with hx | hx
    · exact step2 h hx
    · left; exact List.mem_singleton.mp hx

/-- Helper: the claimed record itself ends up in the store. -/
lemma self_mem_postHW (uid ud : String) (hw0 : Hardware) (hs : List Hardware) :
    { hw0 with id := uid, userdata := ud } ∈ postHW uid ud hw0 hs := by
  unfold postHW
  dsimp only
  split
  case isTrue hany =>
    rcases List.any_eq_true.mp hany with ⟨x, hx, hmx⟩
    exact List.mem_map.mpr ⟨x, hx, by rw [hmx]; simp⟩
  case isFalse =>
    exact List.mem_append.mpr (Or.inr (List.mem_singleton.mpr rfl))

/-- On the modelled store, a deprovisioning run whose claim lookup finds `thw`
succeeds and leaves exactly: the hardware list with `thw` removed (and the
dead post-deletion claim reset applied), the workflow named
`<thw.name>-workflow` in `thw`'s namespace removed, and the template keyed
`(meta.name, tink-stack)` removed. -/
lemma deprovision_store_run (cn osu hgu : String) (ref : NamespacedName)
    (meta : ObjectMeta) (s : Store) (thw : Hardware)
    (hfind : s.hardwares.find? (fun h => h.id == meta.uid) = some thw) :
    DeprovisionServer (storeDriver cn osu hgu ref) meta s =
      (.ok (),
       ⟨postDepHW thw s.hardwares,
        s.templates.filter (fun t => !(t.name == meta.name && t.ns == "tink-stack")),
        s.workflows.filter
          (fun w => !(w.name == thw.name ++ "-workflow" && w.ns == thw.ns))⟩) := by
  have hmem : thw ∈ s.hardwares := List.mem_of_find?_eq_some hfind
  have hany : s.hardwares.any (hwMatches thw.name thw.ns) = true :=
    List.any_eq_true.mpr ⟨thw, hmem, by simp [hwMatches]⟩
  unfold DeprovisionServer storeDriver storeClients storeGetHardwareWithID
  dsimp only
  rw [hfind]
  dsimp only [storeDeleteWorkflow, storeDeleteHardware, storeSetHardwareID,
    storeDeleteTemplate, postDepHW]
  rw [hany]
  rfl

/-- C1: For every identity and userdata, Provision executes exactly these
steps in this strict order — (1) fetch the hardware named by the statically
configured hardware reference, (2) set its claim identifier to the identity's
unique ID, (3) attach the userdata payload, (4) persist the hardware record to
the resource store, (5) look up the Template named after the identity in the
fixed namespace and create it (parameterized by the configured OS image URL
and metadata-service URL) only if the lookup reports not-found, (6) create the
Workflow binding the hardware and the template — stopping at the first step
that fails, and on success returns the claimed Hardware as the server
descriptor.  Formalised as: against arbitrary controller outcomes, the
driver's call trace and result coincide with the spec's step list
`provisionSteps`. -/
theorem provision_executes_spec_steps (o : Oracle) (cn osu hgu : String)
    (ref : NamespacedName) (meta : ObjectMeta) (ud : String) (s : List Event) :
    ProvisionServer (traceDriver o cn osu hgu ref) meta ud s =
      provisionSteps o osu hgu ref meta ud s :=
  provision_trace_eq o cn osu hgu ref meta ud s

/-- C2: For every identity, Deprovision executes exactly these steps in this
order, stopping at the first step that fails: (1) locate the Hardware whose
claim identifier equals the identity's unique ID, (2) delete the Workflow
whose name is the hardware name suffixed with `-workflow`, (3) delete the
Hardware record from the resource store, (4) reset the (now-deleted)
hardware's claim identifier to the empty string, (5) delete the Template named
after the workload identity.  Formalised as: against arbitrary controller
outcomes, the driver's call trace and result coincide with the spec's step
list `deprovisionSteps`. -/
theorem deprovision_executes_spec_steps (o : Oracle) (cn osu hgu : String)
    (ref : NamespacedName) (meta : ObjectMeta) (s : List Event) :
    DeprovisionServer (traceDriver o cn osu hgu ref) meta s =
      deprovisionSteps o meta s :=
  deprovision_trace_eq o cn osu hgu ref meta s

/-- C9: For every input specification, Validate returns success (performs no
checks and causes no side effect): it is a pass-through no-op default. -/
theorem validate_is_noop : ∀ (σ : Type) (d : Driver σ) (ext : String),
    Validate d ext = none :=
  fun _ _ _ => rfl

/-- C7: For every invocation of Provision in which the initial hardware-fetch
step fails, Provision returns that failure before issuing any claim-set,
userdata-set, persist, template, or workflow operation — no side effect on the
store occurs.  First conjunct: the call trace holds only the fetch.  Second
conjunct: on the modelled store, the store is returned unchanged. -/
theorem provision_fetch_fail_no_side_effects (o : Oracle) (cn osu hgu : String)
    (ref : NamespacedName) (meta : ObjectMeta) (ud : String) (e : Err)
    (hfail : o.getHardware ref = .error e) :
    ProvisionServer (traceDriver o cn osu hgu ref) meta ud [] =
      (.error e, [.getHardware ref]) ∧
    ∀ s : Store, s.hardwares.find? (hwMatches ref.name ref.ns) = none →
      ProvisionServer (storeDriver cn osu hgu ref) meta ud s =
        (.error (.notFound "hardware"), s) := by
  constructor
  · rw [provision_trace_eq]
    unfold provisionSteps
    rw [hfail]
    rfl
  · intro s hnone
    unfold ProvisionServer storeDriver storeClients storeGetHardware
    dsimp only
    rw [hnone]

/-- C8: For every invocation of Provision in which the Template named after
the identity already exists in the store, Provision performs no template
creation, uses the existing template unmodified, proceeds directly to Workflow
creation, and still returns the claimed Hardware on success: when the
template lookup succeeds, the full call trace holds no create-template call,
the workflow call binds the found template's name, and the claimed hardware is
returned. -/
theorem provision_existing_template_skips_creation (o : Oracle)
    (cn osu hgu : String) (ref : NamespacedName) (meta : ObjectMeta)
    (ud : String) (hw0 : Hardware) (tmpl : Template)
    (h1 : o.getHardware ref = .ok hw0)
    (h2 : o.setHardwareID hw0 meta.uid = .ok ())
    (h3 : o.setHardwareUserData { hw0 with id := meta.uid } ud = .ok ())
    (h4 : o.createHardwareOnTinkCluster { hw0 with id := meta.uid, userdata := ud } = .ok ())
    (h5 : o.tinkGetTemplate ⟨meta.name, "tink-stack"⟩ = .ok tmpl)
    (h6 : o.createWorkflow hw0.name tmpl.name
        { hw0 with id := meta.uid, userdata := ud } = .ok ()) :
    ProvisionServer (traceDriver o cn osu hgu ref) meta ud [] =
      (.ok { hw0 with id := meta.uid, userdata := ud },
       [.getHardware ref,
        .setHardwareID hw0 meta.uid,
        .setHardwareUserData { hw0 with id := meta.uid } ud,
        .createHardwareOnTinkCluster { hw0 with id := meta.uid, userdata := ud },
        .getTemplate ⟨meta.name, "tink-stack"⟩,
        .createWorkflow hw0.name tmpl.name { hw0 with id := meta.uid, userdata := ud }]) := by
  rw [provision_trace_eq]
  simp [provisionSteps, h1, h2, h3, h4, h5, h6]

/-- Closed witness for C7 at the fetch-failing oracle and an empty store. -/
theorem provision_fetch_fail_no_side_effects_witness :
    ProvisionServer (traceDriver fetchFailOracle "c" "img" "hegel" refEx) metaEx "ud" [] =
      (.error (.other "connection refused"), [.getHardware refEx]) ∧
    ProvisionServer (storeDriver "c" "img" "hegel" refEx) metaEx "ud" ⟨[], [], []⟩ =
      (.error (.notFound "hardware"), ⟨[], [], []⟩) :=
  ⟨(provision_fetch_fail_no_side_effects fetchFailOracle "c" "img" "hegel" refEx
      metaEx "ud" (.other "connection refused") rfl).1,
   (provision_fetch_fail_no_side_effects fetchFailOracle "c" "img" "hegel" refEx
      metaEx "ud" (.other "connection refused") rfl).2 ⟨[], [], []⟩ rfl⟩

/-- Closed witness for C8 at the all-succeeding oracle. -/
theorem provision_existing_template_skips_creation_witness :
    ProvisionServer (traceDriver okOracle "c" "img" "hegel" refEx) metaEx "ud" [] =
      (.ok { hwEx with id := metaEx.uid, userdata := "ud" },
       [.getHardware refEx,
        .setHardwareID hwEx metaEx.uid,
        .setHardwareUserData { hwEx with id := metaEx.uid } "ud",
        .createHardwareOnTinkCluster { hwEx with id := metaEx.uid, userdata := "ud" },
        .getTemplate ⟨metaEx.name, "tink-stack"⟩,
        .createWorkflow hwEx.name tmplEx.name
          { hwEx with id := metaEx.uid, userdata := "ud" }]) :=
  provision_existing_template_skips_creation okOracle "c" "img" "hegel" refEx
    metaEx "ud" hwEx tmplEx rfl rfl rfl rfl rfl rfl

/-- C4: For every identity and data, if Provision(identity, data) succeeds
then Get(identity) succeeds and returns a Hardware whose claim identifier
equals the identity's unique ID and whose userdata payload equals data.
Settled on the spec-modelled resource store; the machine UID is assumed not to
be claimed by any record before the run. -/
theorem provision_get_round_trip (cn osu hgu : String) (ref : NamespacedName)
    (meta : ObjectMeta) (ud : String) (s : Store) (hw : Hardware) (s' : Store)
    (hfresh : ∀ h ∈ s.hardwares, h.id ≠ meta.uid)
    (hprov : ProvisionServer (storeDriver cn osu hgu ref) meta ud s = (.ok hw, s')) :
    (GetServer (storeDriver cn osu hgu ref) meta s').1 = .ok hw ∧
      hw.id = meta.uid ∧ hw.userdata = ud := by
  cases hfind : s.hardwares.find? (hwMatches ref.name ref.ns) with
  | none =>
    exfalso
    unfold ProvisionServer storeDriver storeClients storeGetHardware at hprov
    dsimp only at hprov
    rw [hfind] at hprov
    simp at hprov
  | some hw0 =>
    have hfst := provision_store_fst cn osu hgu ref meta ud s hw0 hfind
    rw [hprov] at hfst
    have hhw : hw = { hw0 with id := meta.uid, userdata := ud } :=
      Except.ok.inj hfst
    have hhs := provision_store_hardwares cn osu hgu ref meta ud s hw0 hfind
    rw [hprov] at hhs
    have hfind2 : s'.hardwares.find? (fun h => h.id == meta.uid) =
        some { hw0 with id := meta.uid, userdata := ud } := by
      rw [hhs]
      apply find?_eq_some_of_unique
      · exact self_mem_postHW meta.uid ud hw0 s.hardwares
      · simp
      · intro b hb hpb
        rcases mem_postHW hb with hbl | ⟨hbs, _⟩
        · exact hbl
        · exact absurd (by simpa using hpb) (hfresh b hbs)
    constructor
    · unfold GetServer storeDriver storeClients storeGetHardwareWithID
      dsimp only
      rw [hfind2, hhw]
    · rw [hhw]
      exact ⟨rfl, rfl⟩

/-- Closed witness for C4: provisioning `metaEx` on a store holding one
unclaimed hardware record, then fetching it back by claim. -/
theorem provision_get_round_trip_witness :
    (GetServer (storeDriver "c" "img" "hegel" refEx) metaEx
        (ProvisionServer (storeDriver "c" "img" "hegel" refEx) metaEx "ud" storeProv).2).1 =
      .ok { hwEx with id := metaEx.uid, userdata := "ud" } ∧
    Hardware.id { hwEx with id := metaEx.uid, userdata := "ud" } = metaEx.uid ∧
    Hardware.userdata { hwEx with id := metaEx.uid, userdata := "ud" } = "ud" :=
  provision_get_round_trip "c" "img" "hegel" refEx metaEx "ud" storeProv
    { hwEx with id := metaEx.uid, userdata := "ud" }
    (ProvisionServer (storeDriver "c" "img" "hegel" refEx) metaEx "ud" storeProv).2
    (by decide) (by rfl)

/-- C3: For every identity, after Deprovision(identity) returns success: the
Hardware claim identifier is empty (no record in the store carries the
identity's claim any more), a subsequent Get(identity) fails with not-found,
and both the Workflow named `<hardware-name>-workflow` and the Template named
after the identity are absent from the store.  Settled on the spec-modelled
resource store; the identity's claim is assumed to sit on hardware records of
a single namespaced name, and workflows carrying the derived name are assumed
to live in their hardware's namespace. -/
theorem deprovision_clears_claim_and_dependents (cn osu hgu : String)
    (ref : NamespacedName) (meta : ObjectMeta) (s : Store) (thw : Hardware)
    (hfind : s.hardwares.find? (fun h => h.id == meta.uid) = some thw)
    (huniq : ∀ h ∈ s.hardwares, h.id = meta.uid → h.name = thw.name ∧ h.ns = thw.ns)
    (hwfns : ∀ w ∈ s.workflows, w.name = thw.name ++ "-workflow" → w.ns = thw.ns) :
    (DeprovisionServer (storeDriver cn osu hgu ref) meta s).1 = .ok () ∧
    (∀ h ∈ ((DeprovisionServer (storeDriver cn osu hgu ref) meta s).2).hardwares,
        h.id ≠ meta.uid) ∧
    (GetServer (storeDriver cn osu hgu ref) meta
        ((DeprovisionServer (storeDriver cn osu hgu ref) meta s).2)).1 =
      .error (.notFound "hardware") ∧
    (∀ w ∈ ((DeprovisionServer (storeDriver cn osu hgu ref) meta s).2).workflows,
        w.name ≠ thw.name ++ "-workflow") ∧
    (∀ t ∈ ((DeprovisionServer (storeDriver cn osu hgu ref) meta s).2).templates,
        ¬(t.name = meta.name ∧ t.ns = "tink-stack")) := by
  rw [deprovision_store_run cn osu hgu ref meta s thw hfind]
  have hhard : ∀ h ∈ postDepHW thw s.hardwares, h.id ≠ meta.uid := by
    intro h hm
    unfold postDepHW at hm
    rcases List.mem_map.mp hm with ⟨h0, hh0, hh0e⟩
    rcases List.mem_filter.mp hh0 with ⟨hh0s, hh0m⟩
    have hm0 : hwMatches thw.name thw.ns h0 = false := by
      cases hx : hwMatches thw.name thw.ns h0 with
      | false => rfl
      | true => rw [hx] at hh0m; cases hh0m
    rw [if_neg (by rw [hm0]; exact Bool.false_ne_true)] at hh0e
    subst hh0e
    intro hid
    rcases huniq h0 hh0s hid with ⟨hn, hns⟩
    rw [hwMatches_true_iff.mpr ⟨hn, hns⟩] at hm0
    cases hm0
  refine ⟨rfl, hhard, ?_, ?_, ?_⟩
  · unfold GetServer storeDriver storeClients storeGetHardwareWithID
    dsimp only
    rw [List.find?_eq_none.mpr (fun h hm => by simpa using hhard h hm)]
  · intro w hm
    rcases List.mem_filter.mp hm with ⟨hws, hwm⟩
    intro hname
    rw [hname, hwfns w (by exact hws) hname] at hwm
    simp at hwm
  · intro t hm
    rcases List.mem_filter.mp hm with ⟨hts, htm⟩
    rintro ⟨hn, hns⟩
    rw [hn, hns] at htm
    simp at htm

/-- Closed witness for C3 on the store left by a completed provisioning. -/
theorem deprovision_clears_claim_and_dependents_witness :
    (DeprovisionServer (storeDriver "c" "img" "hegel" refEx) metaEx storeDep).1 = .ok () ∧
    (GetServer (storeDriver "c" "img" "hegel" refEx) metaEx
        ((DeprovisionServer (storeDriver "c" "img" "hegel" refEx) metaEx storeDep).2)).1 =
      .error (.notFound "hardware") :=
  ⟨(deprovision_clears_claim_and_dependents "c" "img" "hegel" refEx metaEx storeDep
      hwClaimedEx rfl (by decide) (by decide)).1,
   (deprovision_clears_claim_and_dependents "c" "img" "hegel" refEx metaEx storeDep
      hwClaimedEx rfl (by decide) (by decide)).2.2.1⟩

/-- C5 counterexample: a claim-set failure inside Provision is returned to the
caller as the bare underlying error — it carries no step identity and wraps
nothing. -/
theorem step_failure_wrapping_cex :
    (ProvisionServer (traceDriver boomOracle "c" "img" "hegel" refEx) metaEx "ud" []).1 =
      .error (.other "boom") ∧
    Err.isWrapped (.other "boom") = false :=
  ⟨rfl, rfl⟩

/-- C5 amended: every controller-operation failure inside Provision or
Deprovision aborts the remaining steps immediately (no partial-success
suppression), but only some failures are wrapped with step context: in
Provision only the template lookup (`failed to get template`), and in
Deprovision the workflow-delete, hardware-delete, claim-reset and
template-delete steps — the template-delete message misnaming its step as the
claim reset — while the other failures (Provision's hardware fetch, claim
set, userdata set, persist, template create and workflow create, and
Deprovision's hardware lookup) surface the underlying error unchanged. -/
theorem step_failure_abort_and_wrapping (o : Oracle) (cn osu hgu : String)
    (ref : NamespacedName) (meta : ObjectMeta) (ud : String) :
    (∀ e, o.getHardware ref = .error e →
      ProvisionServer (traceDriver o cn osu hgu ref) meta ud [] =
        (.error e, [.getHardware ref])) ∧
    (∀ hw0 e, o.getHardware ref = .ok hw0 →
      o.setHardwareID hw0 meta.uid = .error e →
      ProvisionServer (traceDriver o cn osu hgu ref) meta ud [] =
        (.error e, [.getHardware ref, .setHardwareID hw0 meta.uid])) ∧
    (∀ hw0 e, o.getHardware ref = .ok hw0 →
      o.setHardwareID hw0 meta.uid = .ok () →
      o.setHardwareUserData { hw0 with id := meta.uid } ud = .error e →
      ProvisionServer (traceDriver o cn osu hgu ref) meta ud [] =
        (.error e, [.getHardware ref, .setHardwareID hw0 meta.uid,
          .setHardwareUserData { hw0 with id := meta.uid } ud])) ∧
    (∀ hw0 e, o.getHardware ref = .ok hw0 →
      o.setHardwareID hw0 meta.uid = .ok () →
      o.setHardwareUserData { hw0 with id := meta.uid } ud = .ok () →
      o.createHardwareOnTinkCluster { hw0 with id := meta.uid, userdata := ud } = .error e →
      ProvisionServer (traceDriver o cn osu hgu ref) meta ud [] =
        (.error e, [.getHardware ref, .setHardwareID hw0 meta.uid,
          .setHardwareUserData { hw0 with id := meta.uid } ud,
          .createHardwareOnTinkCluster { hw0 with id := meta.uid, userdata := ud }])) ∧
    (∀ hw0 e, o.getHardware ref = .ok hw0 →
      o.setHardwareID hw0 meta.uid = .ok () →
      o.setHardwareUserData { hw0 with id := meta.uid } ud = .ok () →
      o.createHardwareOnTinkCluster { hw0 with id := meta.uid, userdata := ud } = .ok () →
      o.tinkGetTemplate ⟨meta.name, "tink-stack"⟩ = .error e →
      e.isNotFound = false →
      ProvisionServer (traceDriver o cn osu hgu ref) meta ud [] =
        (.error (.wrapped "failed to get template" e),
         [.getHardware ref, .setHardwareID hw0 meta.uid,
          .setHardwareUserData { hw0 with id := meta.uid } ud,
          .createHardwareOnTinkCluster { hw0 with id := meta.uid, userdata := ud },
          .getTemplate ⟨meta.name, "tink-stack"⟩])) ∧
    (∀ hw0 e e', o.getHardware ref = .ok hw0 →
      o.setHardwareID hw0 meta.uid = .ok () →
      o.setHardwareUserData { hw0 with id := meta.uid } ud = .ok () →
      o.createHardwareOnTinkCluster { hw0 with id := meta.uid, userdata := ud } = .ok () →
      o.tinkGetTemplate ⟨meta.name, "tink-stack"⟩ = .error e →
      e.isNotFound = true →
      o.createTemplate ⟨meta.name, "tink-stack"⟩ osu hgu = .error e' →
      ProvisionServer (traceDriver o cn osu hgu ref) meta ud [] =
        (.error e',
         [.getHardware ref, .setHardwareID hw0 meta.uid,
          .setHardwareUserData { hw0 with id := meta.uid } ud,
          .createHardwareOnTinkCluster { hw0 with id := meta.uid, userdata := ud },
          .getTemplate ⟨meta.name, "tink-stack"⟩,
          .createTemplate ⟨meta.name, "tink-stack"⟩ osu hgu])) ∧
    (∀ hw0 tmpl e, o.getHardware ref = .ok hw0 →
      o.setHardwareID hw0 meta.uid = .ok () →
      o.setHardwareUserData { hw0 with id := meta.uid } ud = .ok () →
      o.createHardwareOnTinkCluster { hw0 with id := meta.uid, userdata := ud } = .ok () →
      o.tinkGetTemplate ⟨meta.name, "tink-stack"⟩ = .ok tmpl →
      o.createWorkflow hw0.name tmpl.name { hw0 with id := meta.uid, userdata := ud } = .error e →
      ProvisionServer (traceDriver o cn osu hgu ref) meta ud [] =
        (.error e,
         [.getHardware ref, .setHardwareID hw0 meta.uid,
          .setHardwareUserData { hw0 with id := meta.uid } ud,
          .createHardwareOnTinkCluster { hw0 with id := meta.uid, userdata := ud },
          .getTemplate ⟨meta.name, "tink-stack"⟩,
          .createWorkflow hw0.name tmpl.name { hw0 with id := meta.uid, userdata := ud }])) ∧
    (∀ e, o.getHardwareWithID meta.uid = .error e →
      DeprovisionServer (traceDriver o cn osu hgu ref) meta [] =
        (.error e, [.getHardwareWithID meta.uid])) ∧
    (∀ thw e, o.getHardwareWithID meta.uid = .ok thw →
      o.deleteWorkflow (thw.name ++ "-workflow") thw.ns = .error e →
      DeprovisionServer (traceDriver o cn osu hgu ref) meta [] =
        (.error (.wrapped ("failed to delete workflow " ++ (thw.name ++ "-workflow")) e),
         [.getHardwareWithID meta.uid, .deleteWorkflow (thw.name ++ "-workflow") thw.ns])) ∧
    (∀ thw e, o.getHardwareWithID meta.uid = .ok thw →
      o.deleteWorkflow (thw.name ++ "-workflow") thw.ns = .ok () →
      o.tinkDeleteHardware thw = .error e →
      DeprovisionServer (traceDriver o cn osu hgu ref) meta [] =
        (.error (.wrapped ("failed to delete hardware " ++ thw.name) e),
         [.getHardwareWithID meta.uid, .deleteWorkflow (thw.name ++ "-workflow") thw.ns,
          .deleteHardware thw])) ∧
    (∀ thw e, o.getHardwareWithID meta.uid = .ok thw →
      o.deleteWorkflow (thw.name ++ "-workflow") thw.ns = .ok () →
      o.tinkDeleteHardware thw = .ok () →
      o.setHardwareID thw "" = .error e →
      DeprovisionServer (traceDriver o cn osu hgu ref) meta [] =
        (.error (.wrapped ("failed to reset hardware ID for " ++ thw.name) e),
         [.getHardwareWithID meta.uid, .deleteWorkflow (thw.name ++ "-workflow") thw.ns,
          .deleteHardware thw, .setHardwareID thw ""])) ∧
    (∀ thw e, o.getHardwareWithID meta.uid = .ok thw →
      o.deleteWorkflow (thw.name ++ "-workflow") thw.ns = .ok () →
      o.tinkDeleteHardware thw = .ok () →
      o.setHardwareID thw "" = .ok () →
      o.templateDelete ⟨meta.name, "tink-stack"⟩ = .error e →
      DeprovisionServer (traceDriver o cn osu hgu ref) meta [] =
        (.error (.wrapped ("failed to reset hardware ID for " ++ thw.name) e),
         [.getHardwareWithID meta.uid, .deleteWorkflow (thw.name ++ "-workflow") thw.ns,
          .deleteHardware thw, .setHardwareID thw "",
          .deleteTemplate ⟨meta.name, "tink-stack"⟩])) := by
  refine ⟨?_, ?_, ?_, ?_, ?_, ?_, ?_, ?_, ?_, ?_, ?_, ?_⟩
  · intro e h1
    rw [provision_trace_eq]
    simp [provisionSteps, h1]
  · intro hw0 e h1 h2
    rw [provision_trace_eq]
    simp [provisionSteps, h1, h2]
  · intro hw0 e h1 h2 h3
    rw [provision_trace_eq]
    simp [provisionSteps, h1, h2, h3]
  · intro hw0 e h1 h2 h3 h4
    rw [provision_trace_eq]
    simp [provisionSteps, h1, h2, h3, h4]
  · intro hw0 e h1 h2 h3 h4 h5 h6
    rw [provision_trace_eq]
    simp [provisionSteps, h1, h2, h3, h4, h5, h6]
  · intro hw0 e e' h1 h2 h3 h4 h5 h6 h7
    rw [provision_trace_eq]
    simp [provisionSteps, h1, h2, h3, h4, h5, h6, h7]
  · intro hw0 tmpl e h1 h2 h3 h4 h5 h6
    rw [provision_trace_eq]
    simp [provisionSteps, h1, h2, h3, h4, h5, h6]
  · intro e h1
    rw [deprovision_trace_eq]
    simp [deprovisionSteps, h1]
  · intro thw e h1 h2
    rw [deprovision_trace_eq]
    simp [deprovisionSteps, h1, h2]
  · intro thw e h1 h2 h3
    rw [deprovision_trace_eq]
    simp [deprovisionSteps, h1, h2, h3]
  · intro thw e h1 h2 h3 h4
    rw [deprovision_trace_eq]
    simp [deprovisionSteps, h1, h2, h3, h4]
  · intro thw e h1 h2 h3 h4 h5
    rw [deprovision_trace_eq]
    simp [deprovisionSteps, h1, h2, h3, h4, h5]

/-- Closed witness for the amended C5: the claim-set failure surfaces
unwrapped midway through Provision, and the template-delete failure in
Deprovision surfaces wrapped with the claim-reset message. -/
theorem step_failure_abort_and_wrapping_witness :
    ProvisionServer (traceDriver boomOracle "c" "img" "hegel" refEx) metaEx "ud" [] =
      (.error (.other "boom"), [.getHardware refEx, .setHardwareID hwEx metaEx.uid]) ∧
    DeprovisionServer (traceDriver tmplDelFailOracle "c" "img" "hegel" refEx) metaEx [] =
      (.error (.wrapped ("failed to reset hardware ID for " ++ hwClaimedEx.name)
          (.other "tboom")),
       [.getHardwareWithID metaEx.uid,
        .deleteWorkflow (hwClaimedEx.name ++ "-workflow") hwClaimedEx.ns,
        .deleteHardware hwClaimedEx, .setHardwareID hwClaimedEx "",
        .deleteTemplate ⟨metaEx.name, "tink-stack"⟩]) :=
  ⟨(step_failure_abort_and_wrapping boomOracle "c" "img" "hegel" refEx metaEx
      "ud").2.1 hwEx (.other "boom") rfl rfl,
   (step_failure_abort_and_wrapping tmplDelFailOracle "c" "img" "hegel" refEx
      metaEx "ud").2.2.2.2.2.2.2.2.2.2.2 hwClaimedEx (.other "tboom")
      rfl rfl rfl rfl rfl⟩

/-- C10: For every machine, Provision and Deprovision address the Template by
the identical key — name equal to the machine's name and namespace equal to
the fixed literal `tink-stack`, independent of the hardware's own namespace
(the hardware records `hw0` and `thw` here carry arbitrary namespaces) — so
the template deleted by Deprovision is exactly the one looked up or created by
Provision; the Workflow deletion, by contrast, is addressed in the hardware's
namespace.  Formalised over the full call traces of a template-creating
provisioning run and a deprovisioning run of the same machine metadata. -/
theorem template_key_agreement (o : Oracle) (cn osu hgu : String)
    (ref : NamespacedName) (meta : ObjectMeta) (ud : String)
    (hw0 thw : Hardware) (tmpl : Template) (e : Err)
    (p1 : o.getHardware ref = .ok hw0)
    (p2 : o.setHardwareID hw0 meta.uid = .ok ())
    (p3 : o.setHardwareUserData { hw0 with id := meta.uid } ud = .ok ())
    (p4 : o.createHardwareOnTinkCluster { hw0 with id := meta.uid, userdata := ud } = .ok ())
    (p5 : o.tinkGetTemplate ⟨meta.name, "tink-stack"⟩ = .error e)
    (p6 : e.isNotFound = true)
    (p7 : o.createTemplate ⟨meta.name, "tink-stack"⟩ osu hgu = .ok tmpl)
    (p8 : o.createWorkflow hw0.name tmpl.name { hw0 with id := meta.uid, userdata := ud } = .ok ())
    (q1 : o.getHardwareWithID meta.uid = .ok thw)
    (q2 : o.deleteWorkflow (thw.name ++ "-workflow") thw.ns = .ok ())
    (q3 : o.tinkDeleteHardware thw = .ok ())
    (q4 : o.setHardwareID thw "" = .ok ())
    (q5 : o.templateDelete ⟨meta.name, "tink-stack"⟩ = .ok ()) :
    ProvisionServer (traceDriver o cn osu hgu ref) meta ud [] =
      (.ok { hw0 with id := meta.uid, userdata := ud },
       [.getHardware ref, .setHardwareID hw0 meta.uid,
        .setHardwareUserData { hw0 with id := meta.uid } ud,
        .createHardwareOnTinkCluster { hw0 with id := meta.uid, userdata := ud },
        .getTemplate ⟨meta.name, "tink-stack"⟩,
        .createTemplate ⟨meta.name, "tink-stack"⟩ osu hgu,
        .createWorkflow hw0.name tmpl.name { hw0 with id := meta.uid, userdata := ud }]) ∧
    DeprovisionServer (traceDriver o cn osu hgu ref) meta [] =
      (.ok (),
       [.getHardwareWithID meta.uid,
        .deleteWorkflow (thw.name ++ "-workflow") thw.ns,
        .deleteHardware thw, .setHardwareID thw "",
        .deleteTemplate ⟨meta.name, "tink-stack"⟩]) := by
  constructor
  · rw [provision_trace_eq]
    simp [provisionSteps, p1, p2, p3, p4, p5, p6, p7, p8]
  · rw [deprovision_trace_eq]
    simp [deprovisionSteps, q1, q2, q3, q4, q5]

/-- Closed witness for C10 at the template-missing oracle. -/
theorem template_key_agreement_witness :
    ProvisionServer (traceDriver missOracle "c" "img" "hegel" refEx) metaEx "ud" [] =
      (.ok { hwEx with id := metaEx.uid, userdata := "ud" },
       [.getHardware refEx, .setHardwareID hwEx metaEx.uid,
        .setHardwareUserData { hwEx with id := metaEx.uid } "ud",
        .createHardwareOnTinkCluster { hwEx with id := metaEx.uid, userdata := "ud" },
        .getTemplate ⟨metaEx.name, "tink-stack"⟩,
        .createTemplate ⟨metaEx.name, "tink-stack"⟩ "img" "hegel",
        .createWorkflow hwEx.name
          (Template.name ⟨metaEx.name, "tink-stack", "img", "hegel"⟩)
          { hwEx with id := metaEx.uid, userdata := "ud" }]) ∧
    DeprovisionServer (traceDriver missOracle "c" "img" "hegel" refEx) metaEx [] =
      (.ok (),
       [.getHardwareWithID metaEx.uid,
        .deleteWorkflow (hwClaimedEx.name ++ "-workflow") hwClaimedEx.ns,
        .deleteHardware hwClaimedEx, .setHardwareID hwClaimedEx "",
        .deleteTemplate ⟨metaEx.name, "tink-stack"⟩]) :=
  template_key_agreement missOracle "c" "img" "hegel" refEx metaEx "ud"
    hwEx hwClaimedEx ⟨metaEx.name, "tink-stack", "img", "hegel"⟩
    (.notFound "template") rfl rfl rfl rfl rfl rfl rfl rfl rfl rfl rfl rfl rfl

/-- C6: For every driver specification: a non-empty embedded credential that
is valid base64 resolves to the decoded bytes; a non-empty one that is not
valid base64 fails with a configuration error naming the decode failure; an
empty one resolves to the raw value returned by the lookup function under the
fixed key `TINK_KUBECONFIG`, accepted unencoded with no decoding attempted —
and the three failure modes (bad base64 in the embedded path, lookup failure,
derived client configuration not buildable) carry pairwise distinct error
messages. -/
theorem config_resolution_paths (spec : TinkerbellPluginSpec)
    (aa : ConfigVarString → String → Except Err String)
    (rcf : String → Except Err RestConfig) :
    (∀ raw cn os hg rc, spec.kubeconfig.value ≠ "" →
      base64Decode spec.kubeconfig.value = some raw →
      aa spec.clusterName "CLUSTER_NAME" = .ok cn →
      aa spec.osImageURL "OS_IMAGE_URL" = .ok os →
      aa spec.hegelURL "HEGEL_URL" = .ok hg →
      rcf raw = .ok rc →
      GetConfig spec aa rcf = .ok ⟨raw, cn, os, hg, rc⟩) ∧
    (spec.kubeconfig.value ≠ "" →
      base64Decode spec.kubeconfig.value = none →
      GetConfig spec aa rcf = .error (.wrapped
        "failed to decode base64 encoded kubeconfig. Expected value is a base64 encoded Kubeconfig in JSON or YAML format"
        (.other "illegal base64 data"))) ∧
    (∀ v cn os hg rc, spec.kubeconfig.value = "" →
      aa spec.kubeconfig "TINK_KUBECONFIG" = .ok v →
      aa spec.clusterName "CLUSTER_NAME" = .ok cn →
      aa spec.osImageURL "OS_IMAGE_URL" = .ok os →
      aa spec.hegelURL "HEGEL_URL" = .ok hg →
      rcf v = .ok rc →
      GetConfig spec aa rcf = .ok ⟨v, cn, os, hg, rc⟩) ∧
    (∀ e, spec.kubeconfig.value = "" →
      aa spec.kubeconfig "TINK_KUBECONFIG" = .error e →
      GetConfig spec aa rcf =
        .error (.wrapped "failed to get value of \"kubeconfig\" field" e)) ∧
    (∀ raw cn os hg e, spec.kubeconfig.value ≠ "" →
      base64Decode spec.kubeconfig.value = some raw →
      aa spec.clusterName "CLUSTER_NAME" = .ok cn →
      aa spec.osImageURL "OS_IMAGE_URL" = .ok os →
      aa spec.hegelURL "HEGEL_URL" = .ok hg →
      rcf raw = .error e →
      GetConfig spec aa rcf = .error (.wrapped "failed to decode kubeconfig" e)) ∧
    (∀ c1 c2 : Err,
      Err.wrapped
          "failed to decode base64 encoded kubeconfig. Expected value is a base64 encoded Kubeconfig in JSON or YAML format"
          c1 ≠
        Err.wrapped "failed to get value of \"kubeconfig\" field" c2 ∧
      Err.wrapped
          "failed to decode base64 encoded kubeconfig. Expected value is a base64 encoded Kubeconfig in JSON or YAML format"
          c1 ≠
        Err.wrapped "failed to decode kubeconfig" c2 ∧
      Err.wrapped "failed to get value of \"kubeconfig\" field" c1 ≠
        Err.wrapped "failed to decode kubeconfig" c2) := by
  refine ⟨?_, ?_, ?_, ?_, ?_, ?_⟩
  · intro raw cn os hg rc hne hdec hcn hos hhg hrc
    simp [GetConfig, hne, hdec, hcn, hos, hhg, hrc]
  · intro hne hdec
    simp [GetConfig, hne, hdec]
  · intro v cn os hg rc hemp hv hcn hos hhg hrc
    simp [GetConfig, hemp, hv, hcn, hos, hhg, hrc]
  · intro e hemp he
    simp [GetConfig, hemp, he]
  · intro raw cn os hg e hne hdec hcn hos hhg he
    simp [GetConfig, hne, hdec, hcn, hos, hhg, he]
  · intro c1 c2
    refine ⟨?_, ?_, ?_⟩ <;> intro h <;> injection h with hm hc <;>
      exact absurd hm (by decide)

/-- Closed witness for C6: the valid-base64 embedded path resolves to the
decoded bytes, and the invalid-base64 embedded path fails with the decode
error. -/
theorem config_resolution_paths_witness :
    GetConfig specB64 aaEx restEx =
      .ok ⟨"hello", "v-CLUSTER_NAME", "v-OS_IMAGE_URL", "v-HEGEL_URL", ⟨"hello"⟩⟩ ∧
    GetConfig specBadB64 aaEx restEx = .error (.wrapped
      "failed to decode base64 encoded kubeconfig. Expected value is a base64 encoded Kubeconfig in JSON or YAML format"
      (.other "illegal base64 data")) :=
  ⟨(config_resolution_paths specB64 aaEx restEx).1 "hello" "v-CLUSTER_NAME"
      "v-OS_IMAGE_URL" "v-HEGEL_URL" ⟨"hello"⟩ (by decide) (by decide)
      rfl rfl rfl rfl,
   (config_resolution_paths specBadB64 aaEx restEx).2.1 (by decide) (by decide)⟩
